import Mathlib

/-!
Shallow embedding of the columnar storage library (src/src/lib.rs).

Conventions of the embedding:
* Rust `Vec<T>` is modelled by `MVec`, a list of elements together with an
  allocated capacity counter.  Rust only guarantees that the capacity is at
  least the length; the exact amortized growth amounts are unspecified, and
  no theorem below depends on them, so `MVec` grows its capacity to exactly
  the required length when it must grow.
* `usize` values are natural numbers; where the source can underflow
  (`bounds.len() - 1` on an empty bounds vector) we use `usizeSub`, the
  wrap-around subtraction modulo `2 ^ 64` of release builds.  Debug builds
  panic at the same spot; in both modes the result is not a valid count.
* Operations that can panic (`unwrap`, slice indexing, the explicit
  `panic!` in tuple `pop`) return `Option`, with `none` standing for the
  panic.
* Rust `String` values are modelled by their byte lists (`List Nat`); only
  valid text is ever stored, so the UTF-8 re-decoding step of
  `ColumnString::pop` cannot fail and is the identity on the byte list.
* `Result<S, T>` is modelled by `Except T S` (`Except.ok` = `Ok`,
  `Except.error` = `Err`).
-/

/-- The modulus of 64-bit `usize` arithmetic. -/
def U64 : Nat := 2 ^ 64

/-- Byte size of `usize` on the 64-bit target. -/
def usizeBytes : Nat := 8

/-- Byte size of `Result<usize, usize>` (discriminant plus payload word). -/
def resultUsizeBytes : Nat := 16

/-- Byte size of `Option<usize>` (`usize` has no niche, so this is also 16). -/
def optionUsizeBytes : Nat := 16

/-- Wrap-around `usize` subtraction: release-build semantics of `a - b`.
For the arguments that occur below we always have `a ≤ U64` and `b ≤ U64`. -/
def usizeSub (a b : Nat) : Nat := (U64 + a - b) % U64

/-- Model of Rust `Vec<T>`: the element list plus the allocated capacity. -/
structure MVec (α : Type) where
  data : List α
  cap : Nat
deriving DecidableEq

/-- `Vec::default()` / `Vec::new()`: empty, no allocation. -/
def MVec.empty {α : Type} : MVec α := ⟨[], 0⟩

/-- `Vec::push`. -/
def MVec.push {α : Type} (v : MVec α) (x : α) : MVec α :=
  ⟨v.data ++ [x], max v.cap (v.data.length + 1)⟩

/-- `Vec::extend_from_slice`. -/
def MVec.extendFromSlice {α : Type} (v : MVec α) (xs : List α) : MVec α :=
  ⟨v.data ++ xs, max v.cap (v.data.length + xs.length)⟩

/-- `Vec::pop`: removes and returns the last element; no-op on empty. -/
def MVec.pop {α : Type} (v : MVec α) : Option α × MVec α :=
  match v.data.getLast? with
  | none => (none, v)
  | some x => (some x, ⟨v.data.dropLast, v.cap⟩)

/-- `Vec::clear`: drops the elements, keeps the allocation. -/
def MVec.clear {α : Type} (v : MVec α) : MVec α := ⟨[], v.cap⟩

/-- The `Columnar<T>` trait (src lines 10-47), bundled as explicit state
passing: a store state type `C` with the operations on elements `T`.
`pop` returns `none` for a panic and `some (none, c)` for the pop of an
empty store; `index` is modelled separately per store because the view
types differ. -/
structure Store (C : Type) (T : Type) where
  copy : C → T → C
  copySlice : C → List T → C
  len : C → Nat
  pop : C → Option (Option T × C)
  clear : C → C
  heapSize : C → Nat × Nat

/-- `impl<T: Clone> Columnar<T> for Vec<T>` (src lines 70-84), the Flat
Store, parameterized by the byte size of the element type. -/
def vecStore (elemSize : Nat) (α : Type) : Store (MVec α) α where
  copy v x := v.push x
  copySlice v xs := v.extendFromSlice xs
  len v := v.data.length
  pop v := some v.pop
  clear v := MVec.clear v
  heapSize v := (elemSize * v.data.length, elemSize * v.cap)

/-- Flat Store `index` (src line 76): `&self[index]`, panics out of bounds. -/
def vecIndexFlat {α : Type} (v : MVec α) (i : Nat) : Option α := v.data.get? i

/-- `ColumnString` (src lines 129-133). -/
structure ColumnString where
  bounds : MVec Nat
  values : MVec Nat
deriving DecidableEq

/-- `#[derive(Default)]` for `ColumnString` (src line 129): both vectors
default to empty — in particular `bounds` is `[]`, not `[0]`. -/
def ColumnString.default : ColumnString := ⟨MVec.empty, MVec.empty⟩

/-- `ColumnString::copy` (src lines 139-143). -/
def ColumnString.copy (c : ColumnString) (item : List Nat) : ColumnString :=
  let values := c.values.extendFromSlice item
  ⟨c.bounds.push values.data.length, values⟩

/-- `ColumnString::len` (src line 155): `self.bounds.len() - 1` in `usize`
arithmetic, which wraps (release) or panics (debug) when `bounds` is empty. -/
def ColumnString.len (c : ColumnString) : Nat := usizeSub c.bounds.data.length 1

/-- `ColumnString::pop` (src lines 144-153).  `split_off(start)` keeps
`values[0 .. start]` (and the allocation) and hands back the tail; it panics
when `start` exceeds the buffer length.  The `getLastD 0` models the
`unwrap` of `bounds.last()`, which cannot fail under the length guard. -/
def ColumnString.pop (c : ColumnString) : Option (Option (List Nat) × ColumnString) :=
  if c.bounds.data.length > 1 then
    match c.bounds.pop with
    | (some _, bounds2) =>
      let start := bounds2.data.getLastD 0
      if start ≤ c.values.data.length then
        some (some (c.values.data.drop start),
          ⟨bounds2, ⟨c.values.data.take start, c.values.cap⟩⟩)
      else none
    | (none, _) => none
  else
    some (none, c)

/-- `ColumnString::index` (src lines 159-163): `&values[lower .. upper]`,
which panics when `lower > upper` or `upper > values.len()`. -/
def ColumnString.index (c : ColumnString) (i : Nat) : Option (List Nat) :=
  match c.bounds.data.get? i, c.bounds.data.get? (i + 1) with
  | some lo, some hi =>
    if lo ≤ hi ∧ hi ≤ c.values.data.length then
      some ((c.values.data.take hi).drop lo)
    else none
  | _, _ => none

/-- `ColumnString::clear` (src lines 165-168): clears both vectors; note
that no `0` sentinel is re-pushed onto `bounds`. -/
def ColumnString.clear (c : ColumnString) : ColumnString :=
  ⟨MVec.clear c.bounds, MVec.clear c.values⟩

/-- `ColumnString::heap_size` (src lines 169-175). -/
def ColumnString.heapSize (c : ColumnString) : Nat × Nat :=
  (usizeBytes * c.bounds.data.length + c.values.data.length,
   usizeBytes * c.bounds.cap + c.values.cap)

/-- The Text Store as a bundled `Store`; `copy_slice` is the trait default
(element-wise copy), which `ColumnString` does not override. -/
def stringStore : Store ColumnString (List Nat) where
  copy := ColumnString.copy
  copySlice c xs := xs.foldl ColumnString.copy c
  len := ColumnString.len
  pop := ColumnString.pop
  clear := ColumnString.clear
  heapSize := ColumnString.heapSize

/-- `ColumnVec<TC>` (src lines 185-188), the List Store over a nested store
state `C`. -/
structure ColumnVec (C : Type) where
  bounds : MVec Nat
  values : C
deriving DecidableEq

/-- `Default for ColumnVec` (src lines 211-218): `bounds = vec![0]` (one
element, capacity one) over the nested default `v0`. -/
def ColumnVec.default {C : Type} (v0 : C) : ColumnVec C := ⟨⟨[0], 1⟩, v0⟩

/-- `ColumnVec::copy` (src lines 224-228): bulk-copy the slice into the
nested store, then push the new nested length onto `bounds`. -/
def ColumnVec.copy {C T : Type} (S : Store C T) (c : ColumnVec C) (item : List T) :
    ColumnVec C :=
  let values := S.copySlice c.values item
  ⟨c.bounds.push (S.len values), values⟩

/-- The pop loop of `ColumnVec::pop` (src lines 233-236): pop `n` entries
off the nested store, each through `unwrap`, collecting them in pop order.
`none` is a panic of a nested pop or of an `unwrap`. -/
def popN {C T : Type} (S : Store C T) : Nat → C → Option (List T × C)
  | 0, c => some ([], c)
  | n + 1, c =>
    match S.pop c with
    | some (some x, c2) =>
      match popN S n c2 with
      | some (xs, c3) => some (x :: xs, c3)
      | none => none
    | _ => none

/-- `ColumnVec::pop` (src lines 229-242): pop the last bound, compute the
count as the `usize` difference from the new last bound, pop that many
nested entries and reverse them.  `getLastD 0` models the `unwrap` of
`bounds.last()`, which cannot fail under the length guard. -/
def ColumnVec.pop {C T : Type} (S : Store C T) (c : ColumnVec C) :
    Option (Option (List T) × ColumnVec C) :=
  if c.bounds.data.length > 1 then
    match c.bounds.pop with
    | (some last, bounds2) =>
      let count := usizeSub last (bounds2.data.getLastD 0)
      match popN S count c.values with
      | some (xs, values2) => some (some xs.reverse, ⟨bounds2, values2⟩)
      | none => none
    | (none, _) => none
  else
    some (none, c)

/-- `ColumnVec::len` (src line 243): `self.bounds.len() - 1` in `usize`
arithmetic. -/
def ColumnVec.len {C : Type} (c : ColumnVec C) : Nat :=
  usizeSub c.bounds.data.length 1

/-- `ColumnVec::index` (src lines 247-254): the `(lower, upper)` pair of the
returned `ColumnVecRef` view; `bounds[index]` and `bounds[index + 1]` panic
out of bounds. -/
def ColumnVec.index {C : Type} (c : ColumnVec C) (i : Nat) : Option (Nat × Nat) :=
  match c.bounds.data.get? i, c.bounds.data.get? (i + 1) with
  | some lo, some hi => some (lo, hi)
  | _, _ => none

/-- `ColumnVecRef::index` (src lines 202-205) for a flat nested store:
assert `j < upper - lower`, then index the nested store at `lower + j`. -/
def vecRefIndexFlat {α : Type} (values : MVec α) (lo hi j : Nat) : Option α :=
  if j < usizeSub hi lo then vecIndexFlat values (lo + j) else none

/-- `ColumnVec::clear` (src lines 256-259): clears `bounds` (losing the `0`
sentinel) and the nested store. -/
def ColumnVec.clear {C T : Type} (S : Store C T) (c : ColumnVec C) : ColumnVec C :=
  ⟨MVec.clear c.bounds, S.clear c.values⟩

/-- `ColumnVec::heap_size` (src lines 261-267). -/
def ColumnVec.heapSize {C T : Type} (S : Store C T) (c : ColumnVec C) : Nat × Nat :=
  (usizeBytes * c.bounds.data.length + (S.heapSize c.values).1,
   usizeBytes * c.bounds.cap + (S.heapSize c.values).2)

/-- Pair `Columnar<(S, T)> for (SC, TC)` copy (src lines 280-283). -/
def pairCopy {C D T U : Type} (S : Store C T) (R : Store D U)
    (c : C × D) (item : T × U) : C × D :=
  (S.copy c.1 item.1, R.copy c.2 item.2)

/-- Pair `pop` (src lines 284-292): pop both nested stores, zip two values,
pass through two absences, and `panic!("invariant violated")` on a mixed
outcome. -/
def pairPop {C D T U : Type} (S : Store C T) (R : Store D U) (c : C × D) :
    Option (Option (T × U) × (C × D)) :=
  match S.pop c.1 with
  | none => none
  | some (os, c1) =>
    match R.pop c.2 with
    | none => none
    | some (ot, d1) =>
      match os, ot with
      | some s, some t => some (some (s, t), (c1, d1))
      | none, none => some (none, (c1, d1))
      | _, _ => none

/-- Pair `len` (src line 294): the length of the first field store. -/
def pairLen {C D T : Type} (S : Store C T) (c : C × D) : Nat := S.len c.1

/-- `Result<usize, usize>`, the tag entries of `ColumnResult`. -/
inductive RTag : Type where
  | rok : Nat → RTag
  | rerr : Nat → RTag
deriving DecidableEq

/-- `ColumnResult<SC, TC>` (src lines 356-363). -/
structure ColumnResult (SC TC : Type) where
  indexes : MVec RTag
  sStore : SC
  tStore : TC
deriving DecidableEq

/-- `Default for ColumnResult` (src lines 365-373) over nested defaults. -/
def ColumnResult.default {SC TC : Type} (s0 : SC) (t0 : TC) : ColumnResult SC TC :=
  ⟨MVec.empty, s0, t0⟩

/-- `ColumnResult::copy` (src lines 380-391).  Note the `Err` branch of the
source (line 387) pushes `Ok(self.t_store.len())`: the recorded tag is
`Ok` for both variants. -/
def ColumnResult.copy {SC TC A B : Type} (S : Store SC A) (T : Store TC B)
    (c : ColumnResult SC TC) (item : Except B A) : ColumnResult SC TC :=
  match item with
  | Except.ok a =>
    ⟨c.indexes.push (RTag.rok (S.len c.sStore)), S.copy c.sStore a, c.tStore⟩
  | Except.error b =>
    ⟨c.indexes.push (RTag.rok (T.len c.tStore)), c.sStore, T.copy c.tStore b⟩

/-- `ColumnResult::pop` (src lines 392-399): pop the tag, route by it to the
matching side store, `unwrap` the nested pop. -/
def ColumnResult.pop {SC TC A B : Type} (S : Store SC A) (T : Store TC B)
    (c : ColumnResult SC TC) : Option (Option (Except B A) × ColumnResult SC TC) :=
  match c.indexes.pop with
  | (none, _) => some (none, c)
  | (some (RTag.rok _), idx2) =>
    match S.pop c.sStore with
    | some (some a, s2) => some (some (Except.ok a), ⟨idx2, s2, c.tStore⟩)
    | _ => none
  | (some (RTag.rerr _), idx2) =>
    match T.pop c.tStore with
    | some (some b, t2) => some (some (Except.error b), ⟨idx2, c.sStore, t2⟩)
    | _ => none

/-- `ColumnResult::len` (src line 401). -/
def ColumnResult.len {SC TC : Type} (c : ColumnResult SC TC) : Nat :=
  c.indexes.data.length

/-- `ColumnResult::index` (src lines 404-409), parameterized by the nested
index operations: `indexes[index]` panics out of bounds, then the view of
the side named by the tag is wrapped with the matching marker. -/
def ColumnResult.index {SC TC VA VB : Type}
    (sIdx : SC → Nat → Option VA) (tIdx : TC → Nat → Option VB)
    (c : ColumnResult SC TC) (i : Nat) : Option (Except VB VA) :=
  match c.indexes.data.get? i with
  | none => none
  | some (RTag.rok j) => (sIdx c.sStore j).map Except.ok
  | some (RTag.rerr j) => (tIdx c.tStore j).map Except.error

/-- `ColumnResult::clear` (src lines 411-415). -/
def ColumnResult.clear {SC TC A B : Type} (S : Store SC A) (T : Store TC B)
    (c : ColumnResult SC TC) : ColumnResult SC TC :=
  ⟨MVec.clear c.indexes, S.clear c.sStore, T.clear c.tStore⟩

/-- `ColumnResult::heap_size` (src lines 417-423). -/
def ColumnResult.heapSize {SC TC A B : Type} (S : Store SC A) (T : Store TC B)
    (c : ColumnResult SC TC) : Nat × Nat :=
  ((S.heapSize c.sStore).1 + (T.heapSize c.tStore).1
     + resultUsizeBytes * c.indexes.data.length,
   (S.heapSize c.sStore).2 + (T.heapSize c.tStore).2
     + resultUsizeBytes * c.indexes.cap)

/-- The Union Store as a bundled `Store`; `copy_slice` is the trait
default, which `ColumnResult` does not override. -/
def resultStore {SC TC A B : Type} (S : Store SC A) (T : Store TC B) :
    Store (ColumnResult SC TC) (Except B A) where
  copy := ColumnResult.copy S T
  copySlice c xs := xs.foldl (ColumnResult.copy S T) c
  len := ColumnResult.len
  pop := ColumnResult.pop S T
  clear := ColumnResult.clear S T
  heapSize := ColumnResult.heapSize S T

/-- `ColumnOption<TC>` (src lines 431-437). -/
structure ColumnOption (TC : Type) where
  indexes : MVec (Option Nat)
  tStore : TC
deriving DecidableEq

/-- `ColumnOption::copy` (src lines 453-463): a present value records
`Some(payload length)` and copies the payload; an absent value records
`None` and leaves the payload store untouched. -/
def ColumnOption.copy {TC B : Type} (T : Store TC B)
    (c : ColumnOption TC) (item : Option B) : ColumnOption TC :=
  match item with
  | some b => ⟨c.indexes.push (some (T.len c.tStore)), T.copy c.tStore b⟩
  | none => ⟨c.indexes.push none, c.tStore⟩

/-- `ColumnOption::pop` (src lines 464-471): pop the tag; a `Some` tag pops
the payload store through `unwrap`; a `None` tag reconstructs the absence
without touching the payload store; an empty tag vector yields the outer
absence. -/
def ColumnOption.pop {TC B : Type} (T : Store TC B) (c : ColumnOption TC) :
    Option (Option (Option B) × ColumnOption TC) :=
  match c.indexes.pop with
  | (none, _) => some (none, c)
  | (some (some _), idx2) =>
    match T.pop c.tStore with
    | some (some b, t2) => some (some (some b), ⟨idx2, t2⟩)
    | _ => none
  | (some none, idx2) => some (some none, ⟨idx2, c.tStore⟩)

/-- `ColumnOption::len` (src line 473). -/
def ColumnOption.len {TC : Type} (c : ColumnOption TC) : Nat :=
  c.indexes.data.length

/-- `ColumnOption::heap_size` (src lines 488-493); the source prices the
tag vector with `size_of::<Result<usize, usize>>()`. -/
def ColumnOption.heapSize {TC B : Type} (T : Store TC B) (c : ColumnOption TC) :
    Nat × Nat :=
  ((T.heapSize c.tStore).1 + resultUsizeBytes * c.indexes.data.length,
   (T.heapSize c.tStore).2 + resultUsizeBytes * c.indexes.cap)

/-- `Columnable::as_columns` (src lines 53-59): push every element of the
vector, in order, onto the default store `d`; `push` defaults to `copy`. -/
def asColumns {C T : Type} (S : Store C T) (d : C) (v : List T) : C :=
  v.foldl S.copy d

/-- Componentwise sum of two `(used, allocated)` byte-size pairs. -/
def heapAdd (a b : Nat × Nat) : Nat × Nat := (a.1 + b.1, a.2 + b.2)

/-- Spec-side bookkeeping cost of the List Store: the exact byte sizes of
its own bounds array. -/
def vecOwnBytes {C : Type} (c : ColumnVec C) : Nat × Nat :=
  (usizeBytes * c.bounds.data.length, usizeBytes * c.bounds.cap)

/-- Spec-side bookkeeping cost of the Optional Store: the exact byte sizes
of its tag array, whose elements are `Option<usize>`. -/
def optionOwnBytes {TC : Type} (c : ColumnOption TC) : Nat × Nat :=
  (optionUsizeBytes * c.indexes.data.length, optionUsizeBytes * c.indexes.cap)

/-- Spec-side bookkeeping cost of the Union Store: the exact byte sizes of
its tag array, whose elements are `Result<usize, usize>`. -/
def resultOwnBytes {SC TC : Type} (c : ColumnResult SC TC) : Nat × Nat :=
  (resultUsizeBytes * c.indexes.data.length, resultUsizeBytes * c.indexes.cap)

/-- Decidable equality for the model of Rust Result values. -/
instance exceptDecEq {ε α : Type} [DecidableEq ε] [DecidableEq α] :
    DecidableEq (Except ε α) := fun x y =>
  match x, y with
  | Except.ok a, Except.ok b =>
    if h : a = b then isTrue (by rw [h])
    else isFalse fun hc => Except.noConfusion hc fun hab => h hab
  | Except.ok _, Except.error _ => isFalse fun hc => Except.noConfusion hc
  | Except.error _, Except.ok _ => isFalse fun hc => Except.noConfusion hc
  | Except.error e, Except.error f =>
    if h : e = f then isTrue (by rw [h])
    else isFalse fun hc => Except.noConfusion hc fun hef => h hef

/-- Popping a vector with an explicit last element removes exactly it. -/
theorem MVec.pop_concat {α : Type} (l : List α) (x : α) (vc : Nat) :
    MVec.pop ⟨l ++ [x], vc⟩ = (some x, ⟨l, vc⟩) := by
  simp [MVec.pop, List.getLast?_concat, List.dropLast_concat]

/-- The pop loop of the List Store over a Flat Store removes exactly the
last `r.length` elements, in reverse order. -/
theorem popN_append {α : Type} (es : Nat) (l r : List α) (vc : Nat) :
    popN (vecStore es α) r.length ⟨l ++ r, vc⟩ = some (r.reverse, ⟨l, vc⟩) := by
  induction r using List.reverseRecOn with
  | nil => simp [popN]
  | append_singleton r2 x ih =>
    have hp : MVec.pop ⟨l ++ (r2 ++ [x]), vc⟩ = (some x, ⟨l ++ r2, vc⟩) := by
      rw [← List.append_assoc]; exact MVec.pop_concat (l ++ r2) x vc
    have hl : (r2 ++ [x]).length = r2.length + 1 := by simp
    have hproj : (vecStore es α).pop = fun v => some v.pop := rfl
    rw [hl]
    simp only [popN, hproj, hp]
    rw [ih]
    simp [List.reverse_append]

/-- Wrap-around subtraction agrees with exact subtraction in range. -/
theorem usizeSub_exact (a b : Nat) (hba : b ≤ a) (ha : a < U64) :
    usizeSub a b = a - b := by
  unfold usizeSub
  have h1 : U64 + a - b = U64 + (a - b) := by omega
  rw [h1, Nat.add_mod_left]
  exact Nat.mod_eq_of_lt (by omega)

/-- List Store pop over a Flat Store, on a state whose last two bounds are
`p ≤ q` with `q` the nested length: the last bound is removed and the last
`q - p` nested elements come back in their original order. -/
theorem vecPop_segment (bs : List Nat) (p q bc : Nat) (vl : List Int) (vc : Nat)
    (hpq : p ≤ q) (hq : q = vl.length) (hU : q < U64) :
    ColumnVec.pop (vecStore 8 Int) ⟨⟨bs ++ [p, q], bc⟩, ⟨vl, vc⟩⟩ =
      some (some (vl.drop p), ⟨⟨bs ++ [p], bc⟩, ⟨vl.take p, vc⟩⟩) := by
  subst hq
  have hb : bs ++ [p, vl.length] = (bs ++ [p]) ++ [vl.length] := by simp
  have hcount : usizeSub vl.length p = vl.length - p := usizeSub_exact _ _ hpq hU
  have hpop := popN_append 8 (vl.take p) (vl.drop p) vc
  rw [List.take_append_drop, List.length_drop] at hpop
  have hlen : (bs ++ [p, vl.length]).length > 1 := by simp
  unfold ColumnVec.pop
  rw [if_pos hlen]
  rw [hb, MVec.pop_concat]
  simp only [List.getLastD_concat, hcount, hpop, List.reverse_reverse]

/-- C1: refuted by the code (code bug).  Copying `Err(7)` into an empty
Union Store records the tag `Ok(0)` — not the matching `Err` tag — because
the `Err` branch of `ColumnResult::copy` pushes `Ok(self.t_store.len())`.
The subsequent `pop` routes by that tag to the `Ok` side store, whose
`pop` returns absent, and the `unwrap` panics instead of returning
`Err(7)`. -/
theorem c1_err_copy_records_ok_tag :
    (ColumnResult.copy (vecStore 1 Nat) (vecStore 1 Nat)
        (ColumnResult.default MVec.empty MVec.empty) (Except.error 7)).indexes.data
      = [RTag.rok 0] ∧
    ColumnResult.pop (vecStore 1 Nat) (vecStore 1 Nat)
        (ColumnResult.copy (vecStore 1 Nat) (vecStore 1 Nat)
          (ColumnResult.default MVec.empty MVec.empty) (Except.error 7)) = none := by
  decide

/-- C2: refuted by the code (code bug).  The derived default of
`ColumnString` leaves `bounds` empty rather than `[0]`, so pushing
the texts a, bc and the empty text yields `bounds == [1, 3, 3]` (not
`[0, 1, 3, 3]`), `len() == 2` (not 3), `index(1)` yields the empty byte
range (not bc), and `pop` leaves `bounds == [1, 3]` — the byte buffer
alone matches the claim. -/
theorem c2_text_default_and_scenario :
    ColumnString.default.bounds.data = [] ∧
    (ColumnString.copy (ColumnString.copy
        (ColumnString.copy ColumnString.default [97]) [98, 99]) []).bounds.data
      = [1, 3, 3] ∧
    (ColumnString.copy (ColumnString.copy
        (ColumnString.copy ColumnString.default [97]) [98, 99]) []).values.data
      = [97, 98, 99] ∧
    ColumnString.len (ColumnString.copy (ColumnString.copy
        (ColumnString.copy ColumnString.default [97]) [98, 99]) []) = 2 ∧
    ColumnString.index (ColumnString.copy (ColumnString.copy
        (ColumnString.copy ColumnString.default [97]) [98, 99]) []) 1 = some [] ∧
    (ColumnString.pop (ColumnString.copy (ColumnString.copy
        (ColumnString.copy ColumnString.default [97]) [98, 99]) [])).map
        (fun p => (p.1, p.2.bounds.data)) = some (some [], [1, 3]) := by
  decide

/-- C3: refuted by the code (code bug).  Round-trip fails on two supported
shapes: on a default Text Store, `copy` of the text a followed by `pop`
returns the empty-store absence (the element is lost, because the missing
`[0]` sentinel makes the single bound look like an empty store); and on an
empty Union Store, `copy(Err(9)); pop()` panics because the wrong `Ok` tag
routes the pop to the empty `Ok` side store. -/
theorem c3_roundtrip_violated :
    (ColumnString.pop (ColumnString.copy ColumnString.default [97])).map
        (fun p => p.1) = some none ∧
    ColumnResult.pop (vecStore 1 Nat) (vecStore 1 Nat)
        (ColumnResult.copy (vecStore 1 Nat) (vecStore 1 Nat)
          (ColumnResult.default MVec.empty MVec.empty) (Except.error 9)) = none := by
  decide

/-- C4: refuted by the code (code bug).  `ColumnVec::clear` empties the
bounds vector without restoring the `[0]` sentinel, so after pushing
`[1, 2]` and clearing, `len()` is the wrapped value `2 ^ 64 - 1` (debug
builds panic on the underflow), not 0; and a `copy` after `clear` does not
behave as on a fresh store: the copied element cannot be popped back,
while on a fresh default store it can. -/
theorem c4_clear_breaks_len :
    ColumnVec.len (ColumnVec.clear (vecStore 8 Int)
        (ColumnVec.copy (vecStore 8 Int) (ColumnVec.default MVec.empty) [1, 2]))
      = U64 - 1 ∧
    U64 - 1 ≠ 0 ∧
    (ColumnVec.pop (vecStore 8 Int) (ColumnVec.copy (vecStore 8 Int)
        (ColumnVec.clear (vecStore 8 Int) (ColumnVec.copy (vecStore 8 Int)
          (ColumnVec.default MVec.empty) [1, 2])) [5])).map (fun p => p.1)
      = some none ∧
    (ColumnVec.pop (vecStore 8 Int) (ColumnVec.copy (vecStore 8 Int)
        (ColumnVec.default MVec.empty) [5])).map (fun p => p.1)
      = some (some [5]) := by
  decide

/-- C5: confirmed.  General part: on a List Store over a Flat Store whose
last two bounds are `p ≤ q` with `q` the nested length, `pop` removes the
last bound, pops `q - p` nested entries and returns them in original order
(the drop-segment of the nested elements), leaving the nested store cut at
`p`.  Concrete part: pushing `[1, 2]`, `[]`, `[3]` yields nested values
`[1, 2, 3]` and bounds `[0, 2, 2, 3]`, and `index(2)` yields the range
`(2, 3)` whose view indexes to the element 3. -/
theorem c5_list_pop_and_scenario (bs : List Nat) (p q bc : Nat)
    (vl : List Int) (vc : Nat) (hpq : p ≤ q) (hq : q = vl.length) (hU : q < U64) :
    ColumnVec.pop (vecStore 8 Int) ⟨⟨bs ++ [p, q], bc⟩, ⟨vl, vc⟩⟩ =
      some (some (vl.drop p), ⟨⟨bs ++ [p], bc⟩, ⟨vl.take p, vc⟩⟩) ∧
    (ColumnVec.copy (vecStore 8 Int) (ColumnVec.copy (vecStore 8 Int)
        (ColumnVec.copy (vecStore 8 Int) (ColumnVec.default MVec.empty) [1, 2]) [])
        [3]).values.data = [1, 2, 3] ∧
    (ColumnVec.copy (vecStore 8 Int) (ColumnVec.copy (vecStore 8 Int)
        (ColumnVec.copy (vecStore 8 Int) (ColumnVec.default MVec.empty) [1, 2]) [])
        [3]).bounds.data = [0, 2, 2, 3] ∧
    ColumnVec.index (ColumnVec.copy (vecStore 8 Int) (ColumnVec.copy (vecStore 8 Int)
        (ColumnVec.copy (vecStore 8 Int) (ColumnVec.default MVec.empty) [1, 2]) [])
        [3]) 2 = some (2, 3) ∧
    vecRefIndexFlat (ColumnVec.copy (vecStore 8 Int) (ColumnVec.copy (vecStore 8 Int)
        (ColumnVec.copy (vecStore 8 Int) (ColumnVec.default MVec.empty) [1, 2]) [])
        [3]).values 2 3 0 = some 3 := by
  refine ⟨vecPop_segment bs p q bc vl vc hpq hq hU, ?_, ?_, ?_, ?_⟩ <;> decide

/-- Witness for C5 at a concrete state: the scenario store popped once. -/
theorem c5_witness :
    ColumnVec.pop (vecStore 8 Int) ⟨⟨[0, 2] ++ [2, 3], 4⟩, ⟨[1, 2, 3], 3⟩⟩ =
      some (some ([1, 2, 3].drop 2), ⟨⟨[0, 2] ++ [2], 4⟩, ⟨[1, 2, 3].take 2, 3⟩⟩) :=
  (c5_list_pop_and_scenario [0, 2] 2 3 4 [1, 2, 3] 3 (by decide) (by decide)
    (by decide)).1

/-- C7: confirmed, for any payload store.  Popping an empty Optional Store
yields the outer absence and does not touch the state; `copy(None)` leaves
the payload store untouched; and `copy(None); pop()` succeeds with the
reconstructed inner absence, again leaving the payload store exactly as it
was. -/
theorem c7_option_absence (TC B : Type) (T : Store TC B) (c : ColumnOption TC) :
    (c.indexes.data = [] → ColumnOption.pop T c = some (none, c)) ∧
    (ColumnOption.copy T c none).tStore = c.tStore ∧
    (ColumnOption.pop T (ColumnOption.copy T c none)).map
        (fun r => (r.1, r.2.tStore)) = some (some none, c.tStore) := by
  obtain ⟨⟨d, cp⟩, t⟩ := c
  refine ⟨?_, ?_, ?_⟩
  · intro h
    simp only at h
    subst h
    simp [ColumnOption.pop, MVec.pop]
  · simp [ColumnOption.copy]
  · simp [ColumnOption.copy, ColumnOption.pop, MVec.push, MVec.pop_concat]

/-- Witness for C7 over a Flat Store of bytes with an empty state. -/
theorem c7_witness :
    ColumnOption.pop (vecStore 1 Nat)
        (⟨MVec.empty, MVec.empty⟩ : ColumnOption (MVec Nat)) =
      some (none, ⟨MVec.empty, MVec.empty⟩) ∧
    (ColumnOption.copy (vecStore 1 Nat)
        (⟨MVec.empty, MVec.empty⟩ : ColumnOption (MVec Nat)) none).tStore = MVec.empty ∧
    (ColumnOption.pop (vecStore 1 Nat) (ColumnOption.copy (vecStore 1 Nat)
        (⟨MVec.empty, MVec.empty⟩ : ColumnOption (MVec Nat)) none)).map
        (fun r => (r.1, r.2.tStore)) = some (some none, MVec.empty) := by
  have h := c7_option_absence (MVec Nat) Nat (vecStore 1 Nat) ⟨MVec.empty, MVec.empty⟩
  exact ⟨h.1 rfl, h.2.1, h.2.2⟩

/-- C6: refuted by the code (code bug).  With a Text Store first field, the
default tuple store is reachable trivially, and after one `copy` the two
field stores report different lengths (the Text Store is missing its `[0]`
bounds sentinel, so its length underflows to 0 only by wrap-around);
popping that state takes the mixed some-present/some-absent branch and hits
`panic!("invariant violated")` — reached purely through the public
contract. -/
theorem c6_tuple_lockstep_violated :
    pairLen stringStore (pairCopy stringStore (vecStore 1 Nat)
        (ColumnString.default, MVec.empty) ([97], 5)) = 0 ∧
    (vecStore 1 Nat).len (pairCopy stringStore (vecStore 1 Nat)
        (ColumnString.default, MVec.empty) ([97], 5)).2 = 1 ∧
    pairPop stringStore (vecStore 1 Nat) (pairCopy stringStore (vecStore 1 Nat)
        (ColumnString.default, MVec.empty) ([97], 5)) = none := by
  decide

/-- C8: confirmed.  For every state of the List, Optional and Union stores,
`heap_size()` is exactly the componentwise sum of the nested stores
`heap_size()` pairs plus the exact `(used, allocated)` byte sizes of the
own bookkeeping array (bounds respectively tags); for the Optional Store
the tag elements are `Option<usize>`, whose byte size coincides with the
`Result<usize, usize>` size constant the source uses. -/
theorem c8_heap_size_additivity (C SC TC A B T2 : Type)
    (S : Store C T2) (SR : Store SC A) (TR : Store TC B)
    (cv : ColumnVec C) (co : ColumnOption TC) (cr : ColumnResult SC TC) :
    ColumnVec.heapSize S cv = heapAdd (S.heapSize cv.values) (vecOwnBytes cv) ∧
    ColumnOption.heapSize TR co =
      heapAdd (TR.heapSize co.tStore) (optionOwnBytes co) ∧
    ColumnResult.heapSize SR TR cr =
      heapAdd (heapAdd (SR.heapSize cr.sStore) (TR.heapSize cr.tStore))
        (resultOwnBytes cr) := by
  refine ⟨?_, ?_, ?_⟩ <;>
    simp only [ColumnVec.heapSize, ColumnOption.heapSize, ColumnResult.heapSize,
      heapAdd, vecOwnBytes, optionOwnBytes, resultOwnBytes, usizeBytes,
      optionUsizeBytes, resultUsizeBytes, Prod.mk.injEq]
  all_goals omega

/-- C9: refuted by the code (code bug).  On a Union Store reachable through
one public `copy` of `Err(5)`, the entry count is 1, yet `index(0)` — an
in-bounds access — panics: the wrongly recorded `Ok(0)` tag routes the view
to the `Ok` side store, which is empty, so the nested indexing is out of
bounds. -/
theorem c9_index_in_bounds_panics :
    ColumnResult.len (ColumnResult.copy (vecStore 1 Nat) (vecStore 1 Nat)
        (ColumnResult.default MVec.empty MVec.empty) (Except.error 5)) = 1 ∧
    ColumnResult.index vecIndexFlat vecIndexFlat
        (ColumnResult.copy (vecStore 1 Nat) (vecStore 1 Nat)
          (ColumnResult.default MVec.empty MVec.empty) (Except.error 5)) 0 = none := by
  decide

/-- C10: refuted by the code (code bug).  `as_columns(vec![Err(5)])` over
the two-variant union shape produces a store of length 1 (matching the
input length), but popping it panics instead of returning `Err(5)` in
reverse order, because the copy recorded the wrong `Ok` tag. -/
theorem c10_as_columns_pop_panics :
    ColumnResult.len (asColumns (resultStore (vecStore 1 Nat) (vecStore 1 Nat))
        (ColumnResult.default MVec.empty MVec.empty) [Except.error 5]) = 1 ∧
    ColumnResult.pop (vecStore 1 Nat) (vecStore 1 Nat)
        (asColumns (resultStore (vecStore 1 Nat) (vecStore 1 Nat))
          (ColumnResult.default MVec.empty MVec.empty) [Except.error 5]) = none := by
  decide
